import Mathlib

/-!
Verification of the CVE real-time scoring and ingestion pipeline
(`backend/cve_realtime_processor.py`, routing layer `backend/app.py`).

The pretrained artifacts (TF-IDF vectorizer, random-forest classifier,
isolation-forest novelty model) are opaque to this subsystem: we model the
composite "vectorize then query model" read-outs as oracle functions from the
description string to an optional value, `none` standing for a raised
exception inside the library call.  Probabilities and decision scores are
modelled as rationals.
-/

namespace CVEProc

/-- The three risk tiers of `predict_risk` (strings "HIGH"/"MEDIUM"/"LOW"). -/
inductive Risk
  | HIGH
  | MEDIUM
  | LOW
deriving DecidableEq, Repr

/-- Oracle view of the loaded artifacts, as consumed by the pipeline.
`proba d` is `clf.predict_proba(vectorizer.transform([d]))[0][1]`,
`predClass d` is `clf.predict(...)[0]`,
`anomalyLabel d` is `anomaly_clf.predict(...)[0]`,
`anomalyScore d` is `anomaly_clf.decision_function(...)[0]`.
A `none` result models the underlying library call raising an exception. -/
structure Models where
  proba : String → Option ℚ
  predClass : String → Option Int
  anomalyLabel : String → Option Int
  anomalyScore : String → Option ℚ

/-- Module-level state after the import-time `try: joblib.load ...` block
(lines 48-58): either all three artifacts loaded, or `clf, vectorizer,
anomaly_clf = None, None, None` (a single `except` sets all three). -/
inductive LoadState
  | loaded (M : Models)
  | notLoaded

/-- Errors raised by `predict_risk` / `detect_anomaly`:
`modelsNotLoaded` is the `ValueError("Models not loaded...")` guard,
`scoringError` is any exception escaping the sklearn calls. -/
inductive PredErr
  | modelsNotLoaded
  | scoringError
deriving DecidableEq, Repr

/-- Return value of `predict_risk` (lines 113-117). -/
structure RiskResult where
  risk : Risk
  confidence : ℚ
  prediction_class : Int
deriving DecidableEq, Repr

/-- Return value of `detect_anomaly` (lines 162-166). -/
structure AnomalyResult where
  anomalous : Bool
  anomaly_score : ℚ
  threshold_info : String
deriving DecidableEq, Repr

/-- The three-level mapping of `predict_risk` (lines 103-111):
`p >= 0.70` yields HIGH with confidence `p`; otherwise `p >= 0.40` yields
MEDIUM with confidence `p`; otherwise LOW with confidence `1 - p`. -/
def riskMapping (p : ℚ) : Risk × ℚ :=
  if 7/10 ≤ p then (Risk.HIGH, p)
  else if 4/10 ≤ p then (Risk.MEDIUM, p)
  else (Risk.LOW, 1 - p)

/-- `predict_risk` (lines 61-117): raises `ValueError` when the models are
not loaded; otherwise queries the classifier and applies `riskMapping`. -/
def predict_risk (st : LoadState) (description : String) :
    Except PredErr RiskResult :=
  match st with
  | .notLoaded => .error .modelsNotLoaded
  | .loaded M =>
    match M.predClass description, M.proba description with
    | some cls, some p =>
        .ok { risk := (riskMapping p).1
            , confidence := (riskMapping p).2
            , prediction_class := cls }
    | _, _ => .error .scoringError

/-- `detect_anomaly` (lines 120-166): raises when models are not loaded;
otherwise `anomalous := (prediction == -1)`, `anomaly_score` is the raw
decision-function value, and `threshold_info` is one of two fixed strings
chosen by `anomalous`. -/
def detect_anomaly (st : LoadState) (description : String) :
    Except PredErr AnomalyResult :=
  match st with
  | .notLoaded => .error .modelsNotLoaded
  | .loaded M =>
    match M.anomalyLabel description, M.anomalyScore description with
    | some lab, some sc =>
        let isAnomalous : Bool := lab == -1
        .ok { anomalous := isAnomalous
            , anomaly_score := sc
            , threshold_info :=
                if isAnomalous then "outside historical CVE patterns"
                else "within normal patterns" }
    | _, _ => .error .scoringError

/-- One entry of a CVE object's `descriptions` list in the NVD JSON:
`lang` read with `d.get("lang")` (may be absent), `value` read directly. -/
structure DescEntry where
  lang : Option String
  value : String
deriving DecidableEq, Repr

/-- The `cve` object of one feed item: `id` read with
`cve_obj.get("id", "Unknown")`, `descriptions` with
`cve_obj.get("descriptions", [])`. -/
structure CveObj where
  id : Option String
  descriptions : List DescEntry
deriving DecidableEq, Repr

/-- One record emitted by `fetch_cves_from_nvd` (lines 244-247). -/
structure VulnRecord where
  cve_id : String
  description : String
deriving DecidableEq, Repr

/-- `next((d["value"] for d in descriptions if d.get("lang") == "en"), None)`
(lines 238-241): value of the first `en`-tagged description, if any. -/
def englishDesc : List DescEntry → Option String
  | [] => none
  | d :: ds => if d.lang == some "en" then some d.value else englishDesc ds

/-- Python truthiness of the optional description string, as tested by
`if desc_text:` (line 243): `None` and the empty string are falsy. -/
def truthy : Option String → Bool
  | none => false
  | some s => !(s == "")

/-- The per-item body of the extraction loop (lines 232-249): an item is
kept when its extracted description is truthy, with identifier defaulting
to "Unknown"; otherwise it is dropped (with a warning). -/
def extractOne (c : CveObj) : Option VulnRecord :=
  let cve_id := c.id.getD "Unknown"
  let desc := englishDesc c.descriptions
  if truthy desc then some { cve_id := cve_id, description := desc.getD "" }
  else none

/-- The extraction loop over `data.get("vulnerabilities", [])`. -/
def extractCves (items : List CveObj) : List VulnRecord :=
  items.filterMap extractOne

/-- Outcome of the single HTTP GET to the NVD endpoint: `failure` covers a
network error, a timeout, or a non-2xx status (which `raise_for_status`
turns into an exception); `success` carries the parsed item list. -/
inductive FeedResponse
  | failure
  | success (items : List CveObj)

/-- The error `fetch_cves_from_nvd` re-raises on feed failure
(`requests.RequestException`, lines 254-256); the spec's
`UpstreamUnavailable`. -/
inductive FetchErr
  | upstream
deriving DecidableEq, Repr

/-- `fetch_cves_from_nvd` (lines 169-256): issues the one bounded request
and either re-raises the request exception or extracts the records.  Note:
`days_back` and `max_results` are passed straight into the request
parameters (lines 205-209); the function performs no range validation. -/
def fetch_cves_from_nvd (days_back max_results : Int) (resp : FeedResponse) :
    Except FetchErr (List VulnRecord) :=
  match resp with
  | .failure => .error .upstream
  | .success items => .ok (extractCves items)

/-- One aggregate entry of `process_new_cves` (lines 327-332), after the
explicit `str`/`float`/`bool` coercions. -/
structure ScoredRecord where
  cve_id : String
  risk : Risk
  confidence : ℚ
  anomalous : Bool
deriving DecidableEq, Repr

/-- The `try:` body of the per-record loop of `process_new_cves`
(lines 318-345): run `predict_risk` then `detect_anomaly`; any exception
from either yields `none` (the record is skipped and the loop continues). -/
def score1 (st : LoadState) (r : VulnRecord) : Option ScoredRecord :=
  match predict_risk st r.description with
  | .error _ => none
  | .ok riskResult =>
    match detect_anomaly st r.description with
    | .error _ => none
    | .ok anomalyResult =>
        some { cve_id := r.cve_id
             , risk := riskResult.risk
             , confidence := riskResult.confidence
             , anomalous := anomalyResult.anomalous }

/-- `process_new_cves` (lines 259-348): fetch once, re-raising a fetch
failure; on an empty fetch return `[]`; otherwise score each record,
skipping the ones whose scoring raises. -/
def process_new_cves (st : LoadState) (days_back max_results : Int)
    (resp : FeedResponse) : Except FetchErr (List ScoredRecord) :=
  match fetch_cves_from_nvd days_back max_results resp with
  | .error e => .error e
  | .ok cves =>
      if cves.isEmpty then .ok []
      else .ok (cves.filterMap (score1 st))

/-- Result of one call to the `/predict/latest-cves` endpoint:
`unprocessable` is FastAPI's 422 response for a Query-constraint
violation, `serverError` the 500 path, `ok` the JSON list. -/
inductive EndpointResult
  | unprocessable
  | serverError
  | ok (results : List ScoredRecord)

/-- The routing layer `predict_latest_cves` (`app.py` lines 249-252 and
body): FastAPI validates `days_back` against `ge=1, le=30` and
`max_results` against `ge=1, le=100` and rejects with a 422 response
before the handler body (and hence before any fetch) runs; otherwise the
handler calls `process_new_cves` and maps an exception to a 500 error. -/
def predict_latest_cves (st : LoadState) (days_back max_results : Int)
    (resp : FeedResponse) : EndpointResult :=
  if 1 ≤ days_back ∧ days_back ≤ 30 ∧ 1 ≤ max_results ∧ max_results ≤ 100 then
    match process_new_cves st days_back max_results resp with
    | .ok results => .ok results
    | .error _ => .serverError
  else .unprocessable

/-- Filesystem / deserialization state of the three artifact files at
process start: whether each file exists, and whether deserializing the
existing files succeeds (`joblib.load` can raise on an existing but
corrupt file, lines 56-58). -/
structure ArtifactFS where
  rfExists : Bool
  vecExists : Bool
  anomExists : Bool
  deserializeOk : Bool
deriving DecidableEq, Repr

/-- The import-time loading block (lines 48-58): all three artifacts load,
or any exception (missing file or failed deserialization) leaves all three
globals `None`. -/
def moduleLoad (fs : ArtifactFS) (M : Models) : LoadState :=
  if fs.rfExists && fs.vecExists && fs.anomExists && fs.deserializeOk then
    .loaded M
  else .notLoaded

/-- `startup_event` (`app.py` lines 123-148): collects the required model
files that do not exist and raises `FileNotFoundError` when any is
missing; returns `true` when startup succeeds and the app begins serving. -/
def startup_event (fs : ArtifactFS) : Bool :=
  fs.rfExists && fs.vecExists && fs.anomExists

/-! ## Theorems -/

/-- C1: for every probability `p` returned by the classifier, `predict_risk`
assigns the tier by closed-lower-bound thresholds: `p ≥ 0.70` yields HIGH
with confidence `p`; `0.40 ≤ p < 0.70` yields MEDIUM with confidence `p`;
`p < 0.40` yields LOW with confidence `1 - p`.  In particular `p = 0.70`
gives HIGH, `p = 0.6999` gives MEDIUM, `p = 0.40` gives MEDIUM, and
`p = 0.3999` gives LOW with confidence `0.6001`.  The tier and confidence
are `riskMapping p`, a pure deterministic function of `p` alone. -/
theorem predict_risk_tier_thresholds (M : Models) (d : String) (p : ℚ)
    (cls : Int) (hc : M.predClass d = some cls) (hp : M.proba d = some p) :
    predict_risk (.loaded M) d =
      .ok { risk := (riskMapping p).1
          , confidence := (riskMapping p).2
          , prediction_class := cls } ∧
    (7/10 ≤ p → riskMapping p = (Risk.HIGH, p)) ∧
    (4/10 ≤ p → p < 7/10 → riskMapping p = (Risk.MEDIUM, p)) ∧
    (p < 4/10 → riskMapping p = (Risk.LOW, 1 - p)) ∧
    riskMapping (70/100) = (Risk.HIGH, 70/100) ∧
    riskMapping (6999/10000) = (Risk.MEDIUM, 6999/10000) ∧
    riskMapping (40/100) = (Risk.MEDIUM, 40/100) ∧
    riskMapping (3999/10000) = (Risk.LOW, 6001/10000) := by
  refine ⟨by simp [predict_risk, hc, hp], ?_, ?_, ?_, ?_, ?_, ?_, ?_⟩
  · intro h1
    simp [riskMapping, h1]
  · intro h1 h2
    rw [riskMapping, if_neg (by linarith), if_pos h1]
  · intro h1
    rw [riskMapping, if_neg (by linarith), if_neg (by linarith)]
  · norm_num [riskMapping]
  · norm_num [riskMapping]
  · norm_num [riskMapping]
  · norm_num [riskMapping]

/-- Concrete instantiation of `predict_risk_tier_thresholds` at `p = 1/2`. -/
theorem predict_risk_tier_thresholds_witness :
    predict_risk
        (.loaded { proba := fun _ => some (1/2)
                 , predClass := fun _ => some 1
                 , anomalyLabel := fun _ => some 1
                 , anomalyScore := fun _ => some 0 }) "x" =
      .ok { risk := (riskMapping (1/2)).1
          , confidence := (riskMapping (1/2)).2
          , prediction_class := 1 } ∧
    (7/10 ≤ (1/2 : ℚ) → riskMapping (1/2) = (Risk.HIGH, 1/2)) ∧
    (4/10 ≤ (1/2 : ℚ) → (1/2 : ℚ) < 7/10 →
      riskMapping (1/2) = (Risk.MEDIUM, 1/2)) ∧
    ((1/2 : ℚ) < 4/10 → riskMapping (1/2) = (Risk.LOW, 1 - 1/2)) ∧
    riskMapping (70/100) = (Risk.HIGH, 70/100) ∧
    riskMapping (6999/10000) = (Risk.MEDIUM, 6999/10000) ∧
    riskMapping (40/100) = (Risk.MEDIUM, 40/100) ∧
    riskMapping (3999/10000) = (Risk.LOW, 6001/10000) :=
  predict_risk_tier_thresholds _ "x" (1/2) 1 rfl rfl

/-- C4: for every classifier probability `p` in `[0,1]`, the confidence
returned by `predict_risk` lies in `[0,1]` (it is `p` on the HIGH and
MEDIUM branches and `1 - p` on the LOW branch). -/
theorem predict_risk_confidence_in_unit_interval (M : Models) (d : String)
    (p : ℚ) (cls : Int) (hc : M.predClass d = some cls)
    (hp : M.proba d = some p) (h0 : 0 ≤ p) (h1 : p ≤ 1) :
    ∃ r : RiskResult, predict_risk (.loaded M) d = .ok r ∧
      0 ≤ r.confidence ∧ r.confidence ≤ 1 := by
  have h : predict_risk (.loaded M) d =
      .ok { risk := (riskMapping p).1
          , confidence := (riskMapping p).2
          , prediction_class := cls } := by
    simp [predict_risk, hc, hp]
  refine ⟨_, h, ?_, ?_⟩ <;>
    · simp only [riskMapping]
      split <;> [skip; split] <;> simp <;> linarith

/-- Concrete instantiation of `predict_risk_confidence_in_unit_interval`. -/
theorem predict_risk_confidence_in_unit_interval_witness :
    ∃ r : RiskResult,
      predict_risk
          (.loaded { proba := fun _ => some (1/5)
                   , predClass := fun _ => some 0
                   , anomalyLabel := fun _ => some 1
                   , anomalyScore := fun _ => some 0 }) "x" = .ok r ∧
        0 ≤ r.confidence ∧ r.confidence ≤ 1 :=
  predict_risk_confidence_in_unit_interval _ "x" (1/5) 0 rfl rfl
    (by norm_num) (by norm_num)

/-- C3: `detect_anomaly` returns `anomalous = true` if and only if the
novelty model's raw label is the outlier sentinel `-1`; `anomaly_score` is
the decision-function value unmodified; the status string takes exactly one
of two fixed values determined solely by `anomalous`; and the whole result
is independent of the classifier's outputs (never combined with `p` or the
risk confidence). -/
theorem detect_anomaly_raw_readouts (M : Models) (d : String) (lab : Int)
    (sc : ℚ) (hl : M.anomalyLabel d = some lab)
    (hs : M.anomalyScore d = some sc) :
    ∃ a : AnomalyResult, detect_anomaly (.loaded M) d = .ok a ∧
      (a.anomalous = true ↔ lab = -1) ∧
      a.anomaly_score = sc ∧
      a.threshold_info = (if a.anomalous then "outside historical CVE patterns"
        else "within normal patterns") ∧
      (∀ pf : String → Option ℚ, ∀ pc : String → Option Int,
        detect_anomaly (.loaded { M with proba := pf, predClass := pc }) d =
          detect_anomaly (.loaded M) d) := by
  have h : detect_anomaly (.loaded M) d =
      .ok { anomalous := lab == -1
          , anomaly_score := sc
          , threshold_info :=
              if (lab == -1 : Bool) then "outside historical CVE patterns"
              else "within normal patterns" } := by
    simp [detect_anomaly, hl, hs]
  refine ⟨_, h, ?_, rfl, ?_, ?_⟩
  · simp
  · by_cases hcase : lab = -1 <;> simp [hcase]
  · intro pf pc
    simp [detect_anomaly]

/-- Concrete instantiation of `detect_anomaly_raw_readouts`. -/
theorem detect_anomaly_raw_readouts_witness :
    ∃ a : AnomalyResult,
      detect_anomaly
          (.loaded { proba := fun _ => some (1/2)
                   , predClass := fun _ => some 1
                   , anomalyLabel := fun _ => some (-1)
                   , anomalyScore := fun _ => some (-3/2) }) "x" = .ok a ∧
        (a.anomalous = true ↔ (-1 : Int) = -1) ∧
        a.anomaly_score = -3/2 ∧
        a.threshold_info = (if a.anomalous then "outside historical CVE patterns"
          else "within normal patterns") ∧
        (∀ pf : String → Option ℚ, ∀ pc : String → Option Int,
          detect_anomaly
              (.loaded { proba := pf, predClass := pc
                       , anomalyLabel := fun _ => some (-1)
                       , anomalyScore := fun _ => some (-3/2) }) "x" =
            detect_anomaly
              (.loaded { proba := fun _ => some (1/2)
                       , predClass := fun _ => some 1
                       , anomalyLabel := fun _ => some (-1)
                       , anomalyScore := fun _ => some (-3/2) }) "x") :=
  detect_anomaly_raw_readouts _ "x" (-1) (-3/2) rfl rfl

/-- C5: if the single feed request fails (network error, timeout or
non-success status), `fetch_cves_from_nvd` fails with the upstream error
and returns no partial results, and `process_new_cves` propagates the same
failure, returning no records. -/
theorem upstream_failure_aborts_batch (st : LoadState)
    (days_back max_results : Int) :
    fetch_cves_from_nvd days_back max_results .failure = .error .upstream ∧
    process_new_cves st days_back max_results .failure = .error .upstream :=
  ⟨rfl, rfl⟩

/-- Helper: a `filterMap` over a list all of whose elements map to `some`
keeps every element, so its length is the list's length. -/
theorem length_filterMap_of_isSome {α β : Type} (f : α → Option β) :
    ∀ l : List α, (∀ x ∈ l, (f x).isSome = true) →
      (l.filterMap f).length = l.length
  | [], _ => rfl
  | a :: t, h => by
      obtain ⟨b, hb⟩ := Option.isSome_iff_exists.mp (h a (by simp))
      have ih := length_filterMap_of_isSome f t (fun x hx => h x (by simp [hx]))
      simp [List.filterMap_cons, hb, ih]

/-- Helper: if `f` returns `none` at position `i` of `l` and `some` at every
other position, then `filterMap f` over `l` coincides with `filterMap f`
over `l` with position `i` erased, and has length `l.length - 1`. -/
theorem filterMap_one_failure {α β : Type} (f : α → Option β) :
    ∀ (l : List α) (i : ℕ) (hi : i < l.length),
      f (l.get ⟨i, hi⟩) = none →
      (∀ j (hj : j < l.length), j ≠ i → (f (l.get ⟨j, hj⟩)).isSome = true) →
      l.filterMap f = (l.eraseIdx i).filterMap f ∧
        ((l.eraseIdx i).filterMap f).length = l.length - 1 := by
  intro l
  induction l with
  | nil => intro i hi _ _; simp at hi
  | cons a t ih =>
    intro i hi hfail hok
    match i with
    | 0 =>
      have ht : ∀ x ∈ t, (f x).isSome = true := by
        intro x hx
        obtain ⟨⟨j, hj⟩, rfl⟩ := List.mem_iff_get.mp hx
        exact hok (j + 1) (by simpa using Nat.succ_lt_succ hj)
          (Nat.succ_ne_zero j)
      have hf : f a = none := hfail
      refine ⟨by simp [List.filterMap_cons, hf], ?_⟩
      have := length_filterMap_of_isSome f t ht
      simpa using this
    | k + 1 =>
      have hk : k < t.length := by simpa using Nat.lt_of_succ_lt_succ hi
      have hfa : (f a).isSome = true :=
        hok 0 (Nat.succ_pos _) (by omega)
      obtain ⟨b, hb⟩ := Option.isSome_iff_exists.mp hfa
      have hfail2 : f (t.get ⟨k, hk⟩) = none := hfail
      have hok2 : ∀ j (hj : j < t.length), j ≠ k →
          (f (t.get ⟨j, hj⟩)).isSome = true := by
        intro j hj hne
        exact hok (j + 1) (by simpa using Nat.succ_lt_succ hj) (by omega)
      obtain ⟨heq, hlen⟩ := ih k hk hfail2 hok2
      have hlenpos : 1 ≤ t.length := Nat.one_le_iff_ne_zero.mpr (by omega)
      constructor
      · simp [List.filterMap_cons, hb, heq]
      · simp [List.filterMap_cons, hb, hlen]
        omega

/-- C2: when the scoring of exactly one fetched record raises (position
`i`) and every other record scores successfully, the aggregate of
`process_new_cves` equals the scoring of the fetch with that one record
erased — so the failed record is skipped, every other record's result is
unaffected, the surviving entries keep their relative fetch order, and the
aggregate has N - 1 entries. -/
theorem process_skips_single_failing_record (st : LoadState)
    (days_back max_results : Int) (items : List CveObj) (i : ℕ)
    (hi : i < (extractCves items).length)
    (hfail : score1 st ((extractCves items).get ⟨i, hi⟩) = none)
    (hok : ∀ j (hj : j < (extractCves items).length), j ≠ i →
      (score1 st ((extractCves items).get ⟨j, hj⟩)).isSome = true) :
    process_new_cves st days_back max_results (.success items) =
      .ok (((extractCves items).eraseIdx i).filterMap (score1 st)) ∧
    (((extractCves items).eraseIdx i).filterMap (score1 st)).length =
      (extractCves items).length - 1 := by
  obtain ⟨heq, hlen⟩ :=
    filterMap_one_failure (score1 st) (extractCves items) i hi hfail hok
  have hne : (extractCves items).isEmpty = false := by
    cases h : extractCves items with
    | nil => rw [h] at hi; simp at hi
    | cons a t => simp
  exact ⟨by simp [process_new_cves, fetch_cves_from_nvd, hne, heq], hlen⟩

/-- Artifacts for the `process_skips_single_failing_record` witness: the
classifier raises on one specific description and succeeds elsewhere. -/
def failModels : Models :=
  { proba := fun d => if d == "bad description" then none else some (9/10)
  , predClass := fun _ => some 1
  , anomalyLabel := fun _ => some 1
  , anomalyScore := fun _ => some 0 }

/-- Feed items for the `process_skips_single_failing_record` witness. -/
def threeItems : List CveObj :=
  [ { id := some "CVE-2024-0001"
    , descriptions := [{ lang := some "en", value := "good one" }] }
  , { id := some "CVE-2024-0002"
    , descriptions := [{ lang := some "en", value := "bad description" }] }
  , { id := some "CVE-2024-0003"
    , descriptions := [{ lang := some "en", value := "good two" }] } ]

/-- Concrete instantiation of `process_skips_single_failing_record`: with
three fetched records of which the second fails, the aggregate is the two
survivors in fetch order. -/
theorem process_skips_single_failing_record_witness :
    process_new_cves (.loaded failModels) 7 20 (.success threeItems) =
      .ok (((extractCves threeItems).eraseIdx 1).filterMap
        (score1 (.loaded failModels))) ∧
    (((extractCves threeItems).eraseIdx 1).filterMap
        (score1 (.loaded failModels))).length =
      (extractCves threeItems).length - 1 :=
  process_skips_single_failing_record (.loaded failModels) 7 20 threeItems 1
    (by decide) (by decide) (by decide)

/-- C9: the batch pipeline is a deterministic function of the fetched feed
contents and the loaded artifacts: two runs over the same feed response
with the same artifacts yield identical output lists (same identifiers,
tiers, confidences and anomaly flags, in the same order). -/
theorem process_new_cves_deterministic (st1 st2 : LoadState)
    (days_back max_results : Int) (resp1 resp2 : FeedResponse)
    (hst : st1 = st2) (hresp : resp1 = resp2) :
    process_new_cves st1 days_back max_results resp1 =
      process_new_cves st2 days_back max_results resp2 := by
  subst hst
  subst hresp
  rfl

/-- Concrete instantiation of `process_new_cves_deterministic`. -/
theorem process_new_cves_deterministic_witness :
    process_new_cves .notLoaded 7 20
        (.success [{ id := some "CVE-2024-0001"
                   , descriptions := [{ lang := some "en", value := "x" }] }]) =
      process_new_cves .notLoaded 7 20
        (.success [{ id := some "CVE-2024-0001"
                   , descriptions := [{ lang := some "en", value := "x" }] }]) :=
  process_new_cves_deterministic .notLoaded .notLoaded 7 20 _ _ rfl rfl

/-- C10: a feed item that carries a usable English description but no
`"id"` field is emitted with the literal identifier "Unknown"; two such
items in one fetch therefore produce duplicate identifiers in the output,
so a `ScoredRecord` identifier does not map back to a unique input. -/
theorem missing_id_defaults_to_unknown (c1 c2 : CveObj)
    (h1 : c1.id = none) (h2 : c2.id = none)
    (ht1 : truthy (englishDesc c1.descriptions) = true)
    (ht2 : truthy (englishDesc c2.descriptions) = true) :
    (extractCves [c1]).map VulnRecord.cve_id = ["Unknown"] ∧
    (extractCves [c1, c2]).map VulnRecord.cve_id = ["Unknown", "Unknown"] := by
  constructor <;> simp [extractCves, extractOne, h1, h2, ht1, ht2]

/-- Concrete instantiation of `missing_id_defaults_to_unknown`: two
distinct id-less items both come out as "Unknown". -/
theorem missing_id_defaults_to_unknown_witness :
    (extractCves [{ id := none
                  , descriptions := [{ lang := some "en"
                                     , value := "first id-less item" }] }]).map
        VulnRecord.cve_id = ["Unknown"] ∧
    (extractCves
        [ { id := none
          , descriptions := [{ lang := some "en"
                             , value := "first id-less item" }] }
        , { id := none
          , descriptions := [{ lang := some "en"
                             , value := "second id-less item" }] } ]).map
        VulnRecord.cve_id = ["Unknown", "Unknown"] :=
  missing_id_defaults_to_unknown _ _ rfl rfl rfl rfl

/-- Well-behaved artifacts oracle used in concrete endpoint runs. -/
def okModels : Models :=
  { proba := fun _ => some (9/10)
  , predClass := fun _ => some 1
  , anomalyLabel := fun _ => some 1
  , anomalyScore := fun _ => some 0 }

/-- C6 counterexample: invoked directly with `days_back = 31` (outside
[1,30]), the pipeline performs no range validation and no rejection: it
issues the feed request and, on a successful response, returns the scored
records — and on a feed failure returns the upstream error — never an
invalid-input error before the network call. -/
theorem pipeline_no_range_validation :
    fetch_cves_from_nvd 31 20
        (.success [{ id := some "CVE-2024-7777"
                   , descriptions :=
                       [{ lang := some "en", value := "overflow" }] }]) =
      .ok [{ cve_id := "CVE-2024-7777", description := "overflow" }] ∧
    process_new_cves (.loaded okModels) 31 20
        (.success [{ id := some "CVE-2024-7777"
                   , descriptions :=
                       [{ lang := some "en", value := "overflow" }] }]) =
      .ok [{ cve_id := "CVE-2024-7777", risk := Risk.HIGH
           , confidence := 9/10, anomalous := false }] ∧
    process_new_cves (.loaded okModels) 31 20 .failure = .error .upstream := by
  refine ⟨rfl, ?_, rfl⟩
  have hp : riskMapping (9/10) = (Risk.HIGH, 9/10) := by
    norm_num [riskMapping]
  simp [process_new_cves, fetch_cves_from_nvd, extractCves, extractOne,
    englishDesc, truthy, score1, predict_risk, detect_anomaly, okModels, hp]

/-- C6 amended: range validation lives in the routing layer, not in the
pipeline.  A call to the `/predict/latest-cves` endpoint with `days_back`
outside [1,30] or `max_results` outside [1,100] is rejected with a 422
validation response before the handler body runs, so before any artifact
use or network call (the result is independent of the feed response); the
pipeline functions themselves perform no range validation. -/
theorem endpoint_rejects_out_of_range (st : LoadState)
    (days_back max_results : Int) (resp : FeedResponse)
    (h : ¬(1 ≤ days_back ∧ days_back ≤ 30 ∧
           1 ≤ max_results ∧ max_results ≤ 100)) :
    predict_latest_cves st days_back max_results resp = .unprocessable ∧
    ∀ resp2 : FeedResponse,
      predict_latest_cves st days_back max_results resp2 =
        predict_latest_cves st days_back max_results resp := by
  constructor
  · simp [predict_latest_cves, h]
  · intro resp2
    simp [predict_latest_cves, h]

/-- Concrete instantiation of `endpoint_rejects_out_of_range` at
`days_back = 31`. -/
theorem endpoint_rejects_out_of_range_witness :
    predict_latest_cves .notLoaded 31 20 .failure = .unprocessable ∧
    ∀ resp2 : FeedResponse,
      predict_latest_cves .notLoaded 31 20 resp2 =
        predict_latest_cves .notLoaded 31 20 .failure :=
  endpoint_rejects_out_of_range .notLoaded 31 20 .failure (by decide)

/-- Artifacts oracle for the C7 theorems (never consulted when loading
fails). -/
def unusedModels : Models :=
  { proba := fun _ => some 0
  , predClass := fun _ => some 0
  , anomalyLabel := fun _ => some 0
  , anomalyScore := fun _ => some 0 }

/-- C7 counterexample: when all three artifact files exist but their
deserialization fails, the artifacts fail to load (`clf, vectorizer,
anomaly_clf = None`), yet the app startup check — which only tests file
existence — succeeds and the process begins serving; the failure is then
surfaced per call as the `ValueError` of `predict_risk`/`detect_anomaly`. -/
theorem corrupt_artifact_not_fatal :
    moduleLoad { rfExists := true, vecExists := true, anomExists := true
               , deserializeOk := false } unusedModels = .notLoaded ∧
    startup_event { rfExists := true, vecExists := true, anomExists := true
                  , deserializeOk := false } = true ∧
    predict_risk
        (moduleLoad { rfExists := true, vecExists := true, anomExists := true
                    , deserializeOk := false } unusedModels) "some text" =
      .error .modelsNotLoaded ∧
    detect_anomaly
        (moduleLoad { rfExists := true, vecExists := true, anomExists := true
                    , deserializeOk := false } unusedModels) "some text" =
      .error .modelsNotLoaded :=
  ⟨rfl, rfl, rfl, rfl⟩

/-- C7 amended: a *missing* artifact file is a fatal startup condition —
the app's startup check fails and the process refuses to begin serving —
and while the artifacts are loaded, `predict_risk` and `detect_anomaly`
never raise the artifact-unavailability error.  However, an artifact file
that exists but fails to deserialize is not caught at startup and is
surfaced per call instead (see `corrupt_artifact_not_fatal`). -/
theorem missing_artifact_file_fatal (fs : ArtifactFS) (M : Models)
    (d : String)
    (h : fs.rfExists = false ∨ fs.vecExists = false ∨
         fs.anomExists = false) :
    startup_event fs = false ∧
    predict_risk (.loaded M) d ≠ .error .modelsNotLoaded ∧
    detect_anomaly (.loaded M) d ≠ .error .modelsNotLoaded := by
  refine ⟨?_, ?_, ?_⟩
  · rcases h with h | h | h <;> simp [startup_event, h]
  · unfold predict_risk
    rcases hc : M.predClass d with _ | cls <;>
      rcases hp : M.proba d with _ | p <;> simp [hc, hp]
  · unfold detect_anomaly
    rcases hl : M.anomalyLabel d with _ | lab <;>
      rcases hs : M.anomalyScore d with _ | sc <;> simp [hl, hs]

/-- Concrete instantiation of `missing_artifact_file_fatal` with the
classifier file missing. -/
theorem missing_artifact_file_fatal_witness :
    startup_event { rfExists := false, vecExists := true, anomExists := true
                  , deserializeOk := true } = false ∧
    predict_risk (.loaded unusedModels) "x" ≠ .error .modelsNotLoaded ∧
    detect_anomaly (.loaded unusedModels) "x" ≠ .error .modelsNotLoaded :=
  missing_artifact_file_fatal _ unusedModels "x" (Or.inl rfl)

/-- C8 counterexample: an item whose `descriptions` list carries an
`en`-tagged entry with the empty string as value *has* an English-language
description, yet the truthiness test `if desc_text:` drops it, so it is
not kept in the output. -/
theorem empty_english_description_dropped :
    (([{ lang := some "en", value := "" }] : List DescEntry).any
        (fun d => d.lang == some "en")) = true ∧
    extractCves [{ id := some "CVE-2024-0100"
                 , descriptions := [{ lang := some "en", value := "" }] }] =
      [] :=
  ⟨rfl, rfl⟩

/-- C8 amended: `fetch_cves_from_nvd` keeps exactly the items whose
extracted English description is truthy (present and nonempty), in feed
order; an item with no `en`-tagged description, or whose first `en`-tagged
description is the empty string, is dropped with a warning.  The batch
pipeline scores only the extracted records, so a dropped item never
reaches the Risk Scorer or the Anomaly Detector. -/
theorem fetch_keeps_truthy_english_descriptions (st : LoadState)
    (days_back max_results : Int) (items : List CveObj) :
    extractCves items =
      (items.filter (fun c => truthy (englishDesc c.descriptions))).map
        (fun c => { cve_id := c.id.getD "Unknown"
                  , description := (englishDesc c.descriptions).getD "" }) ∧
    process_new_cves st days_back max_results (.success items) =
      .ok ((extractCves items).filterMap (score1 st)) := by
  constructor
  · induction items with
    | nil => rfl
    | cons c t ih =>
      cases h : truthy (englishDesc c.descriptions) <;>
        simp [extractCves, extractOne, List.filterMap_cons, h,
          List.filter_cons] <;>
        exact ih
  · cases h : (extractCves items).isEmpty with
    | true =>
      have hnil : extractCves items = [] := by simpa using h
      simp [process_new_cves, fetch_cves_from_nvd, h, hnil]
    | false => simp [process_new_cves, fetch_cves_from_nvd, h]

end CVEProc
